import Mathlib

/-!
Verification development for the Iris smart-glasses core: a shallow
embedding of the command/state engine (src/core/parser.py), the device
registry (src/core/discovery.py) and the interrupt channel
(src/core/server.py), with theorems about their behaviour.

Wall-clock time is modelled as a rational number of seconds passed
explicitly to every operation that reads the clock (the Python code calls
datetime.now() at those points).  Python dictionaries are modelled as
association lists with insertion-order-preserving update.
-/

/-- Python-style dynamic values appearing in parser payloads and
per-state data (the code stores only strings and ints there). -/
inductive PyVal where
  | str (s : String)
  | int (n : Int)
deriving DecidableEq

/-- Python truthiness for the values we model (`if todo_text:`). -/
def PyVal.truthy : PyVal → Bool
  | .str s => s ≠ ""
  | .int n => n ≠ 0

/-- Dictionary lookup: `d.get(k)`. -/
def dictGet {α : Type} (l : List (String × α)) (k : String) : Option α :=
  (l.find? (fun p => p.1 == k)).map (fun p => p.2)

/-- Dictionary update: `d[k] = v`.  Python dicts keep the position of an
existing key and append new keys at the end; on the duplicate-free
lists this development builds, replacing the first occurrence in place
models that exactly. -/
def dictSet {α : Type} : List (String × α) → String → α →
    List (String × α)
  | [], k, v => [(k, v)]
  | p :: rest, k, v =>
      if p.1 == k then (k, v) :: rest else p :: dictSet rest k v

/-- Whether `pat` is a prefix of `s` (on character lists, so that the
kernel can evaluate it). -/
def listStartsWith : List Char → List Char → Bool
  | _, [] => true
  | [], _ :: _ => false
  | c :: cs, d :: ds => c = d && listStartsWith cs ds

/-- Whether `pat` occurs somewhere in `s` (substring containment,
Python `pat in s`). -/
def listContainsPat : List Char → List Char → Bool
  | [], pat => listStartsWith [] pat
  | c :: rest, pat =>
      listStartsWith (c :: rest) pat || listContainsPat rest pat

/-- Python `pat in s`. -/
def strContains (s pat : String) : Bool :=
  listContainsPat s.toList pat.toList

/-- Python `s.startswith(pat)`. -/
def strStartsWith (s pat : String) : Bool :=
  listStartsWith s.toList pat.toList

/-- Python `s[n:]`: drop the first `n` characters. -/
def strDropChars (s : String) (n : Nat) : String :=
  ⟨s.toList.drop n⟩

/-- Whitespace characters stripped by Python str.strip() and by int()
on a string argument (ASCII subset). -/
def isPySpace (c : Char) : Bool :=
  c = ' ' || c = '\t' || c = '\n' || c = '\r' || c = '\x0b' || c = '\x0c'

/-- Python `s.strip()` on a character list. -/
def pyStripChars (l : List Char) : List Char :=
  ((l.dropWhile isPySpace).reverse.dropWhile isPySpace).reverse

/-- Python `s.strip()`. -/
def pyStrip (s : String) : String :=
  ⟨pyStripChars s.toList⟩

/-- Python `s.split(sep)` for a single-character separator, on
character lists.  Splitting the empty string yields one empty field. -/
def splitOnChar (sep : Char) : List Char → List (List Char)
  | [] => [[]]
  | c :: rest =>
      let r := splitOnChar sep rest
      if c = sep then [] :: r
      else
        match r with
        | [] => [[c]]
        | h :: t => (c :: h) :: t

/-- The 13 UI states of the voice-command state machine
(src/core/parser.py, class State). -/
inductive State where
  | idle
  | main_menu
  | todo_menu
  | todo_list
  | todo_add
  | todo_instructions
  | translation
  | device_list
  | connected_light
  | connected_fan
  | connected_motion
  | connected_distance
  | connected_glasses
deriving DecidableEq

/-- Result of parsing one voice command (src/core/parser.py, ParseResult).
`data` is the payload dictionary. -/
structure ParseResult where
  new_state : Option State
  action : Option String
  data : List (String × PyVal)
deriving DecidableEq

/-- `ParseResult()` with all defaults. -/
def ParseResult.empty : ParseResult := ⟨none, none, []⟩

/-- The mutable state of CommandParser (src/core/parser.py).  The
`registry` field of the Python class is never read by the parsing logic,
so it is omitted. -/
structure CommandParser where
  timeout_seconds : Rat
  current_state : State
  last_command_time : Rat
  state_data : List (String × PyVal)
deriving DecidableEq

/-- States with 10-second timeout that return to IDLE
(CommandParser.TIMEOUT_STATES). -/
def CommandParser.TIMEOUT_STATES : List State :=
  [.main_menu, .todo_list, .device_list]

/-- States with a timeout that goes to a specific state
(CommandParser.CUSTOM_TIMEOUT_STATES, a dict), as a lookup function. -/
def CommandParser.CUSTOM_TIMEOUT_STATES : State → Option State
  | .todo_add => some .todo_list
  | _ => none

/-- States that never time out (CommandParser.NO_TIMEOUT_STATES). -/
def CommandParser.NO_TIMEOUT_STATES : List State :=
  [.idle, .translation, .connected_light, .connected_fan,
   .connected_motion, .connected_distance, .connected_glasses]

/-- CommandParser.__init__ at clock time `now`. -/
def CommandParser.init (timeout_seconds now : Rat) : CommandParser :=
  ⟨timeout_seconds, .idle, now, []⟩

/-- CommandParser._transition_to, at clock time `now`. -/
def CommandParser.transitionTo (now : Rat) (p : CommandParser)
    (new_state : State) : CommandParser :=
  let old_state := p.current_state
  let p1 := { p with current_state := new_state, last_command_time := now }
  if old_state ≠ new_state then { p1 with state_data := [] } else p1

/-- CommandParser.check_timeout, at clock time `now`.  Returns the
updated parser and the optional forced new state. -/
def CommandParser.checkTimeout (now : Rat) (p : CommandParser) :
    CommandParser × Option State :=
  if now - p.last_command_time < p.timeout_seconds then
    (p, none)
  else if CommandParser.TIMEOUT_STATES.contains p.current_state then
    (CommandParser.transitionTo now p .idle, some .idle)
  else
    match CommandParser.CUSTOM_TIMEOUT_STATES p.current_state with
    | some new_state =>
        (CommandParser.transitionTo now p new_state, some new_state)
    | none => (p, none)

/-- CommandParser.set_state_data. -/
def CommandParser.setStateData (p : CommandParser) (k : String)
    (v : PyVal) : CommandParser :=
  { p with state_data := dictSet p.state_data k v }

/-- CommandParser.get_state_data with explicit default. -/
def CommandParser.getStateData (p : CommandParser) (k : String)
    (default : Option PyVal) : Option PyVal :=
  match dictGet p.state_data k with
  | some v => some v
  | none => default

/-- CommandParser._strip_iris_prefix: strip a leading "iris " token
unless the transcript begins with the wake phrase "hey iris". -/
def CommandParser.stripIris (transcript : String) : String :=
  if transcript = "" then transcript
  else if strStartsWith transcript "hey iris" then transcript
  else if strStartsWith transcript "iris " then
    pyStrip (strDropChars transcript 5)
  else transcript

/-- CommandParser._normalize_number_word. -/
def CommandParser.normalizeNumberWord (transcript : String) : String :=
  match transcript with
  | "one" => "1"
  | "two" => "2"
  | "three" => "3"
  | "four" => "4"
  | "five" => "5"
  | "six" => "6"
  | "seven" => "7"
  | "eight" => "8"
  | "nine" => "9"
  | _ => transcript

/-- CommandParser._parse_idle. -/
def CommandParser.parseIdle (t : String) : ParseResult :=
  if strContains t "hey iris" then ⟨some .main_menu, none, []⟩
  else ParseResult.empty

/-- CommandParser._parse_main_menu. -/
def CommandParser.parseMainMenu (t : String) : ParseResult :=
  let normalized := CommandParser.normalizeNumberWord t
  if ["todo", "1"].contains normalized || ["todo", "one"].contains t then
    ⟨some .todo_menu, none, []⟩
  else if ["weather", "2"].contains normalized ||
      ["weather", "translation", "two"].contains t then
    ⟨some .translation, none, []⟩
  else if ["connect", "3"].contains normalized ||
      ["connect", "three"].contains t then
    ⟨some .device_list, none, []⟩
  else if t = "back" then ⟨some .idle, none, []⟩
  else ParseResult.empty

/-- CommandParser._parse_todo_menu. -/
def CommandParser.parseTodoMenu (t : String) : ParseResult :=
  let normalized := CommandParser.normalizeNumberWord t
  if ["list", "1"].contains normalized || ["list", "one"].contains t then
    ⟨some .todo_list, none, []⟩
  else if ["add", "2"].contains normalized || ["add", "two"].contains t then
    ⟨some .todo_add, none, []⟩
  else if ["instructions", "3"].contains normalized ||
      ["instructions", "three"].contains t then
    ⟨some .todo_instructions, none, []⟩
  else ParseResult.empty

/-- CommandParser._parse_todo_instructions. -/
def CommandParser.parseTodoInstructions (t : String) : ParseResult :=
  if t = "back" then ⟨some .todo_menu, none, []⟩ else ParseResult.empty

/-- CommandParser._parse_todo_list. -/
def CommandParser.parseTodoList (t : String) : ParseResult :=
  if t = "up" then ⟨none, some "scroll_up", []⟩
  else if t = "down" then ⟨none, some "scroll_down", []⟩
  else if t = "cross" then ⟨none, some "mark_done", []⟩
  else if t = "uncross" then ⟨none, some "mark_undone", []⟩
  else if t = "add" then ⟨some .todo_add, none, []⟩
  else if t = "back" then ⟨some .todo_menu, none, []⟩
  else ParseResult.empty

/-- CommandParser._parse_todo_add: the only handler that mutates the
per-state data (it captures dictated text). -/
def CommandParser.parseTodoAdd (p : CommandParser) (t : String) :
    CommandParser × ParseResult :=
  if t = "confirm" then
    let todo_text :=
      (CommandParser.getStateData p "captured_text"
        (some (.str ""))).getD (.str "")
    if todo_text.truthy then
      (p, ⟨some .todo_list, some "add_todo", [("text", todo_text)]⟩)
    else (p, ParseResult.empty)
  else if t = "cancel" then
    (p, ⟨some .todo_list, none, []⟩)
  else
    (CommandParser.setStateData p "captured_text" (.str t),
     ⟨none, some "capture_todo_text", [("text", .str t)]⟩)

/-- CommandParser._parse_translation. -/
def CommandParser.parseTranslation (t : String) : ParseResult :=
  if strContains t "iris end" || t = "end" then ⟨some .main_menu, none, []⟩
  else ⟨none, some "translate", [("text", .str t)]⟩

/-- The digit strings accepted for numbered device selection. -/
def digitStrings : List String :=
  ["1", "2", "3", "4", "5", "6", "7", "8", "9"]

/-- Python int() of a known single digit string, for the device list. -/
def digitToInt (s : String) : Int :=
  match s with
  | "1" => 1 | "2" => 2 | "3" => 3 | "4" => 4 | "5" => 5
  | "6" => 6 | "7" => 7 | "8" => 8 | "9" => 9 | _ => 0

/-- CommandParser._parse_device_list. -/
def CommandParser.parseDeviceList (t : String) : ParseResult :=
  if t = "up" then ⟨none, some "scroll_up", []⟩
  else if t = "down" then ⟨none, some "scroll_down", []⟩
  else if t = "connect" then ⟨none, some "connect_current", []⟩
  else if strStartsWith t "connect " then
    ⟨none, some "connect_named", [("name", .str (strDropChars t 8))]⟩
  else if digitStrings.contains t ||
      digitStrings.contains (CommandParser.normalizeNumberWord t) then
    let normalized := CommandParser.normalizeNumberWord t
    if digitStrings.contains normalized then
      ⟨none, some "connect_numbered",
        [("index", .int (digitToInt normalized - 1))]⟩
    else ParseResult.empty
  else if t = "back" then ⟨some .main_menu, none, []⟩
  else ParseResult.empty

/-- CommandParser._parse_connected_light. -/
def CommandParser.parseConnectedLight (t : String) : ParseResult :=
  if t = "on" then ⟨none, some "light_on", []⟩
  else if t = "off" then ⟨none, some "light_off", []⟩
  else if t = "back" then ⟨some .device_list, none, []⟩
  else ParseResult.empty

/-- CommandParser._parse_connected_fan. -/
def CommandParser.parseConnectedFan (t : String) : ParseResult :=
  if t = "on" then ⟨none, some "fan_on", []⟩
  else if t = "off" then ⟨none, some "fan_off", []⟩
  else if t = "low" then ⟨none, some "fan_low", []⟩
  else if t = "high" then ⟨none, some "fan_high", []⟩
  else if t = "back" then ⟨some .device_list, none, []⟩
  else ParseResult.empty

/-- CommandParser._parse_connected_motion. -/
def CommandParser.parseConnectedMotion (t : String) : ParseResult :=
  if t = "on" then ⟨none, some "motion_on", []⟩
  else if t = "off" then ⟨none, some "motion_off", []⟩
  else if t = "back" then ⟨some .device_list, none, []⟩
  else ParseResult.empty

/-- CommandParser._parse_connected_distance. -/
def CommandParser.parseConnectedDistance (t : String) : ParseResult :=
  if t = "back" then ⟨some .device_list, none, []⟩ else ParseResult.empty

/-- CommandParser._parse_connected_glasses. -/
def CommandParser.parseConnectedGlasses (t : String) : ParseResult :=
  if strStartsWith t "send " then
    ⟨none, some "send_message", [("message", .str (strDropChars t 5))]⟩
  else if t = "back" then ⟨some .device_list, none, []⟩
  else ParseResult.empty

/-- CommandParser.parse at clock time `now`: early-return on an empty
transcript, strip the iris prefix, refresh `last_command_time`, dispatch
on the current state, and apply the transition if one was produced. -/
def CommandParser.parse (now : Rat) (p : CommandParser)
    (transcript : String) : CommandParser × ParseResult :=
  if transcript = "" then (p, ParseResult.empty)
  else
    let cleaned := CommandParser.stripIris transcript
    let p1 := { p with last_command_time := now }
    let step : CommandParser × ParseResult :=
      match p1.current_state with
      | .idle => (p1, CommandParser.parseIdle cleaned)
      | .main_menu => (p1, CommandParser.parseMainMenu cleaned)
      | .todo_menu => (p1, CommandParser.parseTodoMenu cleaned)
      | .todo_instructions =>
          (p1, CommandParser.parseTodoInstructions cleaned)
      | .todo_list => (p1, CommandParser.parseTodoList cleaned)
      | .todo_add => CommandParser.parseTodoAdd p1 cleaned
      | .translation => (p1, CommandParser.parseTranslation cleaned)
      | .device_list => (p1, CommandParser.parseDeviceList cleaned)
      | .connected_light => (p1, CommandParser.parseConnectedLight cleaned)
      | .connected_fan => (p1, CommandParser.parseConnectedFan cleaned)
      | .connected_motion =>
          (p1, CommandParser.parseConnectedMotion cleaned)
      | .connected_distance =>
          (p1, CommandParser.parseConnectedDistance cleaned)
      | .connected_glasses =>
          (p1, CommandParser.parseConnectedGlasses cleaned)
    match step.2.new_state with
    | some s => (CommandParser.transitionTo now step.1 s, step.2)
    | none => step

/-- Feed a list of (clock time, transcript) pairs through the parser,
collecting the results. -/
def CommandParser.runTranscripts (p : CommandParser) :
    List (Rat × String) → CommandParser × List ParseResult
  | [] => (p, [])
  | (now, t) :: rest =>
      let step := CommandParser.parse now p t
      let tail := CommandParser.runTranscripts step.1 rest
      (tail.1, step.2 :: tail.2)

/-!
## Interrupt channel (src/core/server.py)
-/

/-- Types of interrupts (src/core/server.py, InterruptType). -/
inductive InterruptType where
  | motion
  | device_offline
  | device_online
  | system_error
deriving DecidableEq

/-- An interrupt event (src/core/server.py, Interrupt). -/
structure Interrupt where
  type : InterruptType
  data : List (String × PyVal)
  timestamp : Rat
  source_ip : String
deriving DecidableEq

/-- The state of InterruptManager: a bounded FIFO queue (front of the
list is the oldest element) plus the running flag. -/
structure InterruptManager where
  maxsize : Nat
  queue : List Interrupt
  running : Bool
deriving DecidableEq

/-- InterruptManager.__init__(max_queue_size). -/
def InterruptManager.mk0 (max_queue_size : Nat) : InterruptManager :=
  ⟨max_queue_size, [], true⟩

/-- InterruptManager.push: non-blocking; `put_nowait` raises `queue.Full`
(returning false here) when the queue already holds `maxsize` items and
the capacity is positive. -/
def InterruptManager.push (m : InterruptManager) (i : Interrupt) :
    InterruptManager × Bool :=
  if ¬ m.running then (m, false)
  else if 0 < m.maxsize ∧ m.maxsize ≤ m.queue.length then (m, false)
  else ({ m with queue := m.queue ++ [i] }, true)

/-- InterruptManager.poll: non-blocking dequeue. -/
def InterruptManager.poll (m : InterruptManager) :
    InterruptManager × Option Interrupt :=
  if ¬ m.running then (m, none)
  else
    match m.queue with
    | [] => (m, none)
    | i :: rest => ({ m with queue := rest }, some i)

/-- InterruptManager.get_queue_size. -/
def InterruptManager.getQueueSize (m : InterruptManager) : Nat :=
  m.queue.length

/-- InterruptManager.clear_queue: pops with `get_nowait` until the queue
is empty and returns how many items were removed (it does not consult
the running flag). -/
def InterruptManager.clearQueue (m : InterruptManager) :
    InterruptManager × Nat :=
  ({ m with queue := [] }, m.queue.length)

/-- Push a whole list of interrupts in order, collecting the boolean
result of each push. -/
def InterruptManager.pushMany (m : InterruptManager) :
    List Interrupt → InterruptManager × List Bool
  | [] => (m, [])
  | i :: rest =>
      let step := InterruptManager.push m i
      let tail := InterruptManager.pushMany step.1 rest
      (tail.1, step.2 :: tail.2)

/-!
## Device registry (src/core/discovery.py)
-/

/-- A discovered device record (src/core/discovery.py,
DiscoveredDevice). -/
structure DiscoveredDevice where
  device_type : String
  name : String
  ip : String
  port : Int
  last_seen : Rat
  online : Bool
  hostname : String
deriving DecidableEq

/-- DiscoveredDevice construction including __post_init__, which fills
an empty hostname with "iris-<type>.local". -/
def mkDiscoveredDevice (device_type name ip : String) (port : Int)
    (last_seen : Rat) (online : Bool) (hostname : String) :
    DiscoveredDevice :=
  if hostname = "" then
    ⟨device_type, name, ip, port, last_seen, online,
     "iris-" ++ device_type ++ ".local"⟩
  else
    ⟨device_type, name, ip, port, last_seen, online, hostname⟩

/-- One entry of the `manual_devices` section of the configuration, as
read by _load_manual_devices via dict.get: optional ip, optional name,
optional port (the port may be a non-integer in the config file). -/
structure ManualDeviceConfig where
  ip : Option String
  name : Option String
  port : Option PyVal
deriving DecidableEq

/-- The registry state: mock flag, the devices dict keyed by device
type, and the configured manual devices (the only part of the config the
claims touch). -/
structure DeviceRegistry where
  mock : Bool
  devices : List (String × DiscoveredDevice)
  manual_devices : List (String × ManualDeviceConfig)
deriving DecidableEq

/-- DeviceRegistry._get_device_name. -/
def DeviceRegistry.getDeviceName (device_type : String) : String :=
  match device_type with
  | "pi" => "Pi Display"
  | "light" => "Lights"
  | "fan" => "Smart Fan"
  | "motion" => "Motion Sensor"
  | "distance" => "Distance Sensor"
  | "glasses" => "Glasses 2"
  | _ => "Unknown Device (" ++ device_type ++ ")"

/-- The staleness window: timedelta(minutes=2), in seconds. -/
def staleWindow : Rat := 120

/-- DeviceRegistry._is_device_stale at clock time `now`. -/
def DeviceRegistry.isDeviceStale (now : Rat) (reg : DeviceRegistry)
    (d : DiscoveredDevice) : Bool :=
  if reg.mock then false
  else decide (staleWindow < now - d.last_seen)

/-- DeviceRegistry.get_device at clock time `now`: looks up the record
and, as a read side effect, forces online=false when the record is
stale. -/
def DeviceRegistry.getDevice (now : Rat) (reg : DeviceRegistry)
    (device_type : String) : DeviceRegistry × Option DiscoveredDevice :=
  match dictGet reg.devices device_type with
  | none => (reg, none)
  | some d =>
      if DeviceRegistry.isDeviceStale now reg d then
        let d2 := { d with online := false }
        ({ reg with devices := dictSet reg.devices device_type d2 },
         some d2)
      else (reg, some d)

/-- DeviceRegistry.is_device_online at clock time `now`. -/
def DeviceRegistry.isDeviceOnline (now : Rat) (reg : DeviceRegistry)
    (device_type : String) : DeviceRegistry × Bool :=
  let r := DeviceRegistry.getDevice now reg device_type
  (r.1,
   match r.2 with
   | some d => d.online
   | none => false)

/-- DeviceRegistry.add_manual_device at clock time `now`: unconditional
upsert, no address validation. -/
def DeviceRegistry.addManualDevice (now : Rat) (reg : DeviceRegistry)
    (device_type ip : String) (port : Int) : DeviceRegistry :=
  let device := mkDiscoveredDevice device_type
    (DeviceRegistry.getDeviceName device_type) ip port now true ""
  { reg with devices := dictSet reg.devices device_type device }

/-- Digit-sequence body accepted by Python int() after the sign: digits
with single underscores allowed between digits.  `acc` is the value of
the digits consumed so far. -/
def pyDigitsAux (acc : Nat) : List Char → Option Nat
  | [] => some acc
  | c :: rest =>
      if c.isDigit then pyDigitsAux (10 * acc + (c.toNat - 48)) rest
      else if c = '_' then
        match rest with
        | [] => none
        | d :: rest2 =>
            if d.isDigit then pyDigitsAux (10 * acc + (d.toNat - 48)) rest2
            else none
      else none

/-- Nonempty digit body; must start with a digit. -/
def pyDigits : List Char → Option Nat
  | [] => none
  | c :: rest =>
      if c.isDigit then pyDigitsAux (c.toNat - 48) rest else none

/-- Python built-in int() applied to a string (here a character list):
surrounding whitespace is stripped, an optional single + or - sign is
allowed, then a digit sequence with optional single underscores between
digits.  Returns none where Python raises ValueError.  (Unicode digits
and non-ASCII whitespace, which Python also accepts, are outside this
model.) -/
def pyIntChars (l : List Char) : Option Int :=
  match pyStripChars l with
  | '+' :: rest => (pyDigits rest).map (fun n => (n : Int))
  | '-' :: rest => (pyDigits rest).map (fun n => -(n : Int))
  | rest => (pyDigits rest).map (fun n => (n : Int))

/-- The placeholder values rejected by _is_valid_ip. -/
def ipPlaceholders : List String :=
  ["CHANGE_ME", "change_me", "placeholder", "", "0.0.0.0"]

/-- DeviceRegistry._is_valid_ip: rejects empty and placeholder strings,
then requires exactly four dot-separated fields, each accepted by
Python int() with value between 0 and 255. -/
def DeviceRegistry.isValidIp (ip : String) : Bool :=
  if ip = "" then false
  else if ipPlaceholders.contains (pyStrip ip) then false
  else
    let parts := splitOnChar '.' ip.toList
    if parts.length ≠ 4 then false
    else
      parts.all (fun part =>
        match pyIntChars part with
        | some num => decide (0 ≤ num) && decide (num ≤ 255)
        | none => false)

/-- The port actually used by _load_manual_devices:
device_config.get("port", 80), replaced by 80 unless it is an int in
1..65535. -/
def manualPort : Option PyVal → Int
  | some (.int p) => if p < 1 ∨ p > 65535 then 80 else p
  | some (.str _) => 80
  | none => 80

/-- One iteration of the _load_manual_devices loop over the devices
dict: skip when the device was already discovered online, when the ip is
missing or empty, or when the ip fails validation; otherwise build the
record and upsert it. -/
def DeviceRegistry.loadManualStep (now : Rat)
    (devices : List (String × DiscoveredDevice))
    (entry : String × ManualDeviceConfig) :
    List (String × DiscoveredDevice) :=
  let device_type := entry.1
  let cfg := entry.2
  let alreadyOnline :=
    match dictGet devices device_type with
    | some d => d.online
    | none => false
  if alreadyOnline then devices
  else
    match cfg.ip with
    | none => devices
    | some ip =>
        if ip = "" then devices
        else if ¬ DeviceRegistry.isValidIp ip then devices
        else
          let name := cfg.name.getD
            (DeviceRegistry.getDeviceName device_type)
          let port := manualPort cfg.port
          let device := mkDiscoveredDevice device_type name ip port
            now true ""
          dictSet devices device_type device

/-- DeviceRegistry._load_manual_devices at clock time `now`. -/
def DeviceRegistry.loadManualDevices (now : Rat) (reg : DeviceRegistry) :
    DeviceRegistry :=
  { reg with
    devices :=
      reg.manual_devices.foldl (DeviceRegistry.loadManualStep now)
        reg.devices }

/-- Errors a registry call can fail with.  The code raises Python
TimeoutError (src/core/discovery.py line 347); the notFoundError
constructor exists to state the specification sentence that names a
NotFoundError, which appears nowhere in the code. -/
inductive IrisError where
  | timeoutError (device_type : String) (timeout : Rat)
  | notFoundError (device_type : String) (timeout : Rat)
deriving DecidableEq

/-- Whether an error is the notFoundError of the specification. -/
def IrisError.isNotFound : IrisError → Bool
  | .notFoundError _ _ => true
  | .timeoutError _ _ => false

/-- DeviceRegistry.wait_for_device (non-mock path) over an explicit
execution trace.  Each trace element is one iteration of the while loop:
the wall-clock time when the guard `time.time() - start_time < timeout`
is evaluated, paired with the `get_device` result seen in that
iteration (the re-discovery and 1-second sleep between iterations only
advance the clock and refresh the registry, which the trace records).
The loop exits by guard failure once the timeout has elapsed; an
exhausted trace is also a timeout exit, reachable only when the supplied
trace is shorter than the real loop. -/
def DeviceRegistry.waitForDeviceRun (start timeout : Rat)
    (device_type : String) :
    List (Rat × Option DiscoveredDevice) →
    Except IrisError DiscoveredDevice
  | [] => .error (.timeoutError device_type timeout)
  | (tm, found) :: rest =>
      if tm - start < timeout then
        match found with
        | some d =>
            if d.online then .ok d
            else DeviceRegistry.waitForDeviceRun start timeout
              device_type rest
        | none =>
            DeviceRegistry.waitForDeviceRun start timeout device_type rest
      else .error (.timeoutError device_type timeout)

/-- Valid dotted-quad IPv4 address in the sense of the specification
claim (for comparison with the code embedding
DeviceRegistry.isValidIp): exactly four dot-separated fields, each a
nonempty string of decimal digits denoting a value at most 255. -/
def isDottedQuadIPv4 (ip : String) : Bool :=
  let parts := splitOnChar '.' ip.toList
  parts.length == 4 &&
    parts.all (fun part =>
      part ≠ [] && part.all Char.isDigit &&
        decide (part.foldl (fun a c => 10 * a + (c.toNat - 48)) 0 ≤ 255))

/-- A sample motion interrupt for concrete scenarios. -/
def sampleInterrupt : Interrupt :=
  ⟨.motion, [], 0, "192.168.1.50"⟩

/-- A capacity-100 interrupt manager after pushing 101 interrupts, with
the list of push results. -/
def pushed101 : InterruptManager × List Bool :=
  InterruptManager.pushMany (InterruptManager.mk0 100)
    (List.replicate 101 sampleInterrupt)

/-!
## Helper lemmas
-/

lemma transitionTo_current_state (now : Rat) (q : CommandParser)
    (s : State) :
    (CommandParser.transitionTo now q s).current_state = s := by
  by_cases h : q.current_state ≠ s <;>
    simp [CommandParser.transitionTo, h]

lemma transitionTo_time (now : Rat) (q : CommandParser) (s : State) :
    (CommandParser.transitionTo now q s).last_command_time = now := by
  by_cases h : q.current_state ≠ s <;>
    simp [CommandParser.transitionTo, h]

lemma transitionTo_timeout_seconds (now : Rat) (q : CommandParser)
    (s : State) :
    (CommandParser.transitionTo now q s).timeout_seconds =
      q.timeout_seconds := by
  by_cases h : q.current_state ≠ s <;>
    simp [CommandParser.transitionTo, h]

lemma transitionTo_state_data_ne (now : Rat) (q : CommandParser)
    (s : State) (h : q.current_state ≠ s) :
    (CommandParser.transitionTo now q s).state_data = [] := by
  unfold CommandParser.transitionTo
  simp [h]

/-- checkTimeout never fires from the IDLE state. -/
lemma checkTimeout_idle (now : Rat) (q : CommandParser)
    (h : q.current_state = .idle) :
    (CommandParser.checkTimeout now q).2 = none := by
  unfold CommandParser.checkTimeout
  rw [h]
  split_ifs with h1 h2
  · rfl
  · exact absurd h2 (by decide)
  · rfl

/-!
## Claims
-/

/-- C1: for every state in the plain-timeout set {MAIN_MENU, TODO_LIST,
DEVICE_LIST}, once at least timeout_seconds have elapsed since
last_command_time, check_timeout transitions the parser to IDLE and
returns IDLE, and an immediately repeated call returns None. -/
theorem plain_timeout_to_idle_once (p : CommandParser) (now : Rat)
    (hstate : p.current_state ∈ CommandParser.TIMEOUT_STATES)
    (helapsed : p.timeout_seconds ≤ now - p.last_command_time) :
    (CommandParser.checkTimeout now p).2 = some .idle ∧
    (CommandParser.checkTimeout now p).1.current_state = .idle ∧
    (CommandParser.checkTimeout now
      (CommandParser.checkTimeout now p).1).2 = none := by
  have hguard : ¬ (now - p.last_command_time < p.timeout_seconds) :=
    not_lt.mpr helapsed
  have hcontains :
      CommandParser.TIMEOUT_STATES.contains p.current_state = true := by
    simp only [CommandParser.TIMEOUT_STATES, List.mem_cons,
      List.not_mem_nil, or_false] at hstate
    rcases hstate with h | h | h <;> rw [h] <;> decide
  have h1 : CommandParser.checkTimeout now p =
      (CommandParser.transitionTo now p .idle, some .idle) := by
    unfold CommandParser.checkTimeout
    rw [if_neg hguard, if_pos hcontains]
  refine ⟨by rw [h1], ?_, ?_⟩
  · rw [h1]
    exact transitionTo_current_state now p .idle
  · rw [h1]
    exact checkTimeout_idle now _ (transitionTo_current_state now p .idle)

/-- Witness for C1 at a concrete parser: MAIN_MENU, timeout 10 seconds,
last command at time 0, checked at time 10. -/
theorem plain_timeout_to_idle_once_witness :
    (CommandParser.checkTimeout 10 ⟨10, .main_menu, 0, []⟩).2 =
      some .idle ∧
    (CommandParser.checkTimeout 10
      ⟨10, .main_menu, 0, []⟩).1.current_state = .idle ∧
    (CommandParser.checkTimeout 10
      (CommandParser.checkTimeout 10 ⟨10, .main_menu, 0, []⟩).1).2 =
      none :=
  plain_timeout_to_idle_once ⟨10, .main_menu, 0, []⟩ 10
    (by decide) (by norm_num)

/-- C2: for every state in the no-timeout set, and for every state not
listed in the plain-timeout or custom-timeout classification,
check_timeout returns None regardless of how much time has elapsed. -/
theorem no_timeout_states_never_fire (p : CommandParser) (now : Rat)
    (h : p.current_state ∈ CommandParser.NO_TIMEOUT_STATES ∨
      (p.current_state ∉ CommandParser.TIMEOUT_STATES ∧
       CommandParser.CUSTOM_TIMEOUT_STATES p.current_state = none)) :
    (CommandParser.checkTimeout now p).2 = none := by
  obtain ⟨ts, cs, lt, sd⟩ := p
  cases cs <;>
    (unfold CommandParser.checkTimeout
     split_ifs with h1 h2 <;>
       simp_all [CommandParser.TIMEOUT_STATES,
         CommandParser.CUSTOM_TIMEOUT_STATES,
         CommandParser.NO_TIMEOUT_STATES])

/-- Witness for C2 at a concrete parser: TRANSLATION state, timeout 10
seconds, last command at time 0, checked at time 100000. -/
theorem no_timeout_states_never_fire_witness :
    (CommandParser.checkTimeout 100000 ⟨10, .translation, 0, []⟩).2 =
      none :=
  no_timeout_states_never_fire ⟨10, .translation, 0, []⟩ 100000
    (Or.inl (by decide))

/-- C3: from IDLE with empty per-state data, the transcript sequence
["hey iris", "todo", "add", "buy milk", "confirm"] ends in state
TODO_LIST and the final parse returns action "add_todo" with payload
{"text": "buy milk"} (and the transition to TODO_LIST). -/
theorem todo_add_scenario :
    (CommandParser.runTranscripts (CommandParser.init 10 0)
      [(1, "hey iris"), (2, "todo"), (3, "add"), (4, "buy milk"),
       (5, "confirm")]).1.current_state = .todo_list ∧
    (CommandParser.runTranscripts (CommandParser.init 10 0)
      [(1, "hey iris"), (2, "todo"), (3, "add"), (4, "buy milk"),
       (5, "confirm")]).2.getLast? =
      some ⟨some .todo_list, some "add_todo",
        [("text", .str "buy milk")]⟩ := by
  constructor <;> decide

/-- parseTodoAdd never touches last_command_time. -/
lemma parseTodoAdd_time (p : CommandParser) (t : String) :
    (CommandParser.parseTodoAdd p t).1.last_command_time =
      p.last_command_time := by
  unfold CommandParser.parseTodoAdd
  split_ifs <;> first
    | rfl
    | (dsimp only; split_ifs <;> rfl)

/-- C4 counterexample: parsing the empty transcript at clock time 5
takes the early return and does NOT refresh last_command_time (it stays
at 0), refuting the claim for every transcript string. -/
theorem parse_empty_does_not_refresh_time :
    (CommandParser.parse 5 (CommandParser.init 10 0)
      "").1.last_command_time = 0 ∧
    (CommandParser.parse 5 (CommandParser.init 10 0)
      "").1.last_command_time ≠ 5 ∧
    (CommandParser.parse 5 (CommandParser.init 10 0) "").2 =
      ParseResult.empty := by
  refine ⟨rfl, by decide, rfl⟩

/-- C4 (amended): for every NON-EMPTY transcript, parse refreshes
last_command_time to the current time, even when the result carries no
new_state and no action. -/
theorem parse_nonempty_refreshes_time (now : Rat) (p : CommandParser)
    (t : String) (ht : t ≠ "") :
    (CommandParser.parse now p t).1.last_command_time = now := by
  unfold CommandParser.parse
  rw [if_neg ht]
  obtain ⟨ts, cs, lt, sd⟩ := p
  cases cs <;>
    (dsimp only
     split <;> simp [transitionTo_time, parseTodoAdd_time])

/-- Witness for C4 (amended): an unrecognized non-empty transcript in
IDLE still refreshes last_command_time. -/
theorem parse_nonempty_refreshes_time_witness :
    "hello" ≠ "" ∧
    (CommandParser.parse 7 (CommandParser.init 10 0)
      "hello").1.last_command_time = 7 :=
  ⟨by decide,
   parse_nonempty_refreshes_time 7 (CommandParser.init 10 0) "hello"
     (by decide)⟩

/-- C5: storing a value in state A, transitioning to a different state
B, then transitioning back to A leaves get_state_data returning the
default (the round trip clears all per-state data), and the transitions
reset last_command_time. -/
theorem transition_roundtrip_clears_data (p : CommandParser)
    (k : String) (v : PyVal) (b : State) (nowb nowa : Rat)
    (d : Option PyVal) (hb : b ≠ p.current_state) :
    CommandParser.getStateData
      (CommandParser.transitionTo nowa
        (CommandParser.transitionTo nowb
          (CommandParser.setStateData p k v) b)
        p.current_state) k d = d ∧
    (CommandParser.transitionTo nowa
      (CommandParser.transitionTo nowb
        (CommandParser.setStateData p k v) b)
      p.current_state).last_command_time = nowa := by
  have h2 : (CommandParser.transitionTo nowb
      (CommandParser.setStateData p k v) b).current_state = b :=
    transitionTo_current_state nowb (CommandParser.setStateData p k v) b
  have h3 : (CommandParser.transitionTo nowa
      (CommandParser.transitionTo nowb
        (CommandParser.setStateData p k v) b)
      p.current_state).state_data = [] := by
    refine transitionTo_state_data_ne nowa _ p.current_state ?_
    rw [h2]
    exact hb
  refine ⟨?_, transitionTo_time nowa _ p.current_state⟩
  simp [CommandParser.getStateData, dictGet, h3]

/-- Witness for C5: store "x" under "captured_text" in TODO_ADD, go to
TODO_LIST and back; the stored value is gone and the time is reset. -/
theorem transition_roundtrip_clears_data_witness :
    CommandParser.getStateData
      (CommandParser.transitionTo 2
        (CommandParser.transitionTo 1
          (CommandParser.setStateData ⟨10, .todo_add, 0, []⟩
            "captured_text" (.str "x")) .todo_list)
        .todo_add) "captured_text" none = none ∧
    (CommandParser.transitionTo 2
      (CommandParser.transitionTo 1
        (CommandParser.setStateData ⟨10, .todo_add, 0, []⟩
          "captured_text" (.str "x")) .todo_list)
      .todo_add).last_command_time = 2 :=
  transition_roundtrip_clears_data ⟨10, .todo_add, 0, []⟩
    "captured_text" (.str "x") .todo_list 1 2 none (by decide)

/-- C6: push never blocks; on a capacity-100 channel the first 100
pushes return true, the 101st returns false, the queue size stays at
100, and clear_queue then removes and counts exactly 100. -/
theorem interrupt_push_drops_newest :
    pushed101.2 = List.replicate 100 true ++ [false] ∧
    pushed101.1.queue.length = 100 ∧
    (InterruptManager.clearQueue pushed101.1).2 = 100 ∧
    (InterruptManager.clearQueue pushed101.1).1.queue.length = 0 := by
  refine ⟨?_, ?_, ?_, ?_⟩ <;> decide

/-- C7: in a non-mock registry, a record whose last_seen is more than
the 2-minute staleness window in the past is returned by get_device
with online forced to false, and is_device_online reports false. -/
theorem stale_device_reported_offline (now : Rat)
    (reg : DeviceRegistry) (t : String) (d : DiscoveredDevice)
    (hmock : reg.mock = false)
    (hget : dictGet reg.devices t = some d)
    (hstale : staleWindow < now - d.last_seen) :
    (DeviceRegistry.getDevice now reg t).2 =
      some { d with online := false } ∧
    (DeviceRegistry.isDeviceOnline now reg t).2 = false := by
  have hs : DeviceRegistry.isDeviceStale now reg d = true := by
    unfold DeviceRegistry.isDeviceStale
    rw [hmock]
    simpa using hstale
  constructor
  · simp [DeviceRegistry.getDevice, hget, hs]
  · simp [DeviceRegistry.isDeviceOnline, DeviceRegistry.getDevice,
      hget, hs]

/-- Witness for C7: a fan last seen at time 0, read at time 121. -/
theorem stale_device_reported_offline_witness :
    (DeviceRegistry.getDevice 121
      ⟨false, [("fan", ⟨"fan", "Smart Fan", "10.0.0.2", 80, 0, true,
        "iris-fan.local"⟩)], []⟩ "fan").2 =
      some ⟨"fan", "Smart Fan", "10.0.0.2", 80, 0, false,
        "iris-fan.local"⟩ ∧
    (DeviceRegistry.isDeviceOnline 121
      ⟨false, [("fan", ⟨"fan", "Smart Fan", "10.0.0.2", 80, 0, true,
        "iris-fan.local"⟩)], []⟩ "fan").2 = false :=
  stale_device_reported_offline 121
    ⟨false, [("fan", ⟨"fan", "Smart Fan", "10.0.0.2", 80, 0, true,
      "iris-fan.local"⟩)], []⟩ "fan"
    ⟨"fan", "Smart Fan", "10.0.0.2", 80, 0, true, "iris-fan.local"⟩
    rfl rfl (by norm_num [staleWindow])

lemma dictGet_dictSet_self {α : Type} (l : List (String × α))
    (k : String) (v : α) :
    dictGet (dictSet l k v) k = some v := by
  induction l with
  | nil =>
      show dictGet [(k, v)] k = some v
      unfold dictGet
      rw [List.find?_cons_of_pos _ (by simp)]
      rfl
  | cons p rest ih =>
      by_cases hp : p.1 = k
      · have h2 : dictSet (p :: rest) k v = (k, v) :: rest := by
          simp [dictSet, hp]
        rw [h2]
        unfold dictGet
        rw [List.find?_cons_of_pos _ (by simp)]
        rfl
      · have hb : (p.1 == k) = false := beq_eq_false_iff_ne.mpr hp
        have h2 : dictSet (p :: rest) k v = p :: dictSet rest k v := by
          simp [dictSet, hb]
        rw [h2]
        unfold dictGet at ih ⊢
        rw [List.find?_cons_of_neg _ (by simp [hb])]
        exact ih

lemma dictGet_dictSet_ne {α : Type} (l : List (String × α))
    (k k2 : String) (v : α) (h : k ≠ k2) :
    dictGet (dictSet l k v) k2 = dictGet l k2 := by
  induction l with
  | nil =>
      show dictGet [(k, v)] k2 = dictGet [] k2
      unfold dictGet
      rw [List.find?_cons_of_neg _ (by simp [h])]
  | cons p rest ih =>
      by_cases hp : p.1 = k
      · have h2 : dictSet (p :: rest) k v = (k, v) :: rest := by
          simp [dictSet, hp]
        rw [h2]
        unfold dictGet
        rw [List.find?_cons_of_neg _ (by simp [h]),
          List.find?_cons_of_neg _ (by simp [hp, h])]
      · have hb : (p.1 == k) = false := beq_eq_false_iff_ne.mpr hp
        have h2 : dictSet (p :: rest) k v = p :: dictSet rest k v := by
          simp [dictSet, hb]
        rw [h2]
        by_cases hp2 : p.1 = k2
        · unfold dictGet
          rw [List.find?_cons_of_pos _ (by simp [hp2]),
            List.find?_cons_of_pos _ (by simp [hp2])]
        · unfold dictGet at ih ⊢
          rw [List.find?_cons_of_neg _ (by simp [hp2]),
            List.find?_cons_of_neg _ (by simp [hp2])]
          exact ih

/-- C10: add_manual_device validates nothing; for every device type,
ip string and port it upserts a record with the given address, online
true, last_seen set to now and the default hostname, overwriting any
existing record of that type. -/
theorem add_manual_device_no_validation (now : Rat)
    (reg : DeviceRegistry) (t ip : String) (port : Int) :
    dictGet (DeviceRegistry.addManualDevice now reg t ip
      port).devices t =
      some ⟨t, DeviceRegistry.getDeviceName t, ip, port, now, true,
        "iris-" ++ t ++ ".local"⟩ := by
  unfold DeviceRegistry.addManualDevice mkDiscoveredDevice
  simp only [if_pos rfl]
  exact dictGet_dictSet_self reg.devices t _

/-- A manual-device entry whose key differs from `t` never changes the
record stored under `t`. -/
lemma loadManualStep_preserve_other (now : Rat)
    (devs : List (String × DiscoveredDevice))
    (e : String × ManualDeviceConfig) (t : String) (h : e.1 ≠ t) :
    dictGet (DeviceRegistry.loadManualStep now devs e) t =
      dictGet devs t := by
  rcases e with ⟨key, cfg⟩
  unfold DeviceRegistry.loadManualStep
  dsimp only
  split_ifs with h1
  · rfl
  · rcases cfg.ip with _ | ip
    · rfl
    · dsimp only
      split_ifs with h2 h3
      · rfl
      · exact dictGet_dictSet_ne devs key t _ h
      · rfl

/-- A manual-device entry whose configured ip is missing or fails
_is_valid_ip is skipped entirely. -/
lemma loadManualStep_invalid (now : Rat)
    (devs : List (String × DiscoveredDevice)) (t : String)
    (cfg : ManualDeviceConfig)
    (h : ∀ s, cfg.ip = some s → DeviceRegistry.isValidIp s = false) :
    DeviceRegistry.loadManualStep now devs (t, cfg) = devs := by
  unfold DeviceRegistry.loadManualStep
  dsimp only
  split_ifs with h1
  · rfl
  · rcases hip : cfg.ip with _ | ip
    · rfl
    · dsimp only
      split_ifs with h2 h3
      · rfl
      · exact absurd h3 (by simp [h ip hip])
      · rfl

/-- Folding the manual-device list never touches a key that does not
occur in it. -/
lemma loadManual_foldl_preserve (now : Rat) :
    ∀ (l : List (String × ManualDeviceConfig))
      (devs : List (String × DiscoveredDevice)) (t : String),
    t ∉ l.map Prod.fst →
    dictGet (l.foldl (DeviceRegistry.loadManualStep now) devs) t =
      dictGet devs t := by
  intro l
  induction l with
  | nil => intro devs t _; rfl
  | cons e rest ih =>
      intro devs t ht
      rw [List.foldl_cons]
      rw [ih (DeviceRegistry.loadManualStep now devs e) t
        (fun hm => ht (List.mem_cons_of_mem _ hm))]
      exact loadManualStep_preserve_other now devs e t
        (fun he => ht (he ▸ List.mem_cons_self _ _))

/-- Folding the manual-device list leaves the record of an entry with
an invalid ip unchanged, provided the configured keys are distinct. -/
lemma loadManual_foldl_invalid (now : Rat) :
    ∀ (l : List (String × ManualDeviceConfig))
      (devs : List (String × DiscoveredDevice)) (t : String)
      (cfg : ManualDeviceConfig),
    (l.map Prod.fst).Nodup → (t, cfg) ∈ l →
    (∀ s, cfg.ip = some s → DeviceRegistry.isValidIp s = false) →
    dictGet (l.foldl (DeviceRegistry.loadManualStep now) devs) t =
      dictGet devs t := by
  intro l
  induction l with
  | nil => intro devs t cfg _ hmem _; cases hmem
  | cons e rest ih =>
      intro devs t cfg hnodup hmem hip
      rw [List.map_cons] at hnodup
      have hnd := List.nodup_cons.mp hnodup
      rw [List.foldl_cons]
      rcases List.mem_cons.mp hmem with heq | hmem2
      · have hstep : DeviceRegistry.loadManualStep now devs e = devs := by
          rw [← heq]
          exact loadManualStep_invalid now devs t cfg hip
        rw [hstep]
        refine loadManual_foldl_preserve now rest devs t ?_
        have he1 : e.1 = t := by rw [← heq]
        exact he1 ▸ hnd.1
      · have ht : t ∈ rest.map Prod.fst :=
          List.mem_map_of_mem Prod.fst hmem2
        have hne : e.1 ≠ t := fun he => hnd.1 (he ▸ ht)
        rw [ih (DeviceRegistry.loadManualStep now devs e) t cfg
          hnd.2 hmem2 hip]
        exact loadManualStep_preserve_other now devs e t hne

/-- C8 (amended): a manual device entry whose configured address is
missing, empty, "0.0.0.0", a placeholder string, or otherwise rejected
by the _is_valid_ip check is never added: the registry record for that
device type is unchanged by _load_manual_devices (assuming the
configured device types are distinct, as dict keys are). -/
theorem manual_invalid_ip_never_added (now : Rat)
    (reg : DeviceRegistry) (t : String) (cfg : ManualDeviceConfig)
    (hnodup : (reg.manual_devices.map Prod.fst).Nodup)
    (hmem : (t, cfg) ∈ reg.manual_devices)
    (hip : ∀ s, cfg.ip = some s → DeviceRegistry.isValidIp s = false) :
    dictGet (DeviceRegistry.loadManualDevices now reg).devices t =
      dictGet reg.devices t := by
  unfold DeviceRegistry.loadManualDevices
  exact loadManual_foldl_invalid now reg.manual_devices reg.devices
    t cfg hnodup hmem hip

/-- Witness for C8 (amended): an entry with the placeholder address
"0.0.0.0" is not loaded. -/
theorem manual_invalid_ip_never_added_witness :
    dictGet (DeviceRegistry.loadManualDevices 0
      ⟨false,
       [("light", ⟨"light", "Lights", "10.0.0.7", 80, 0, false,
         "iris-light.local"⟩)],
       [("light", ⟨some "0.0.0.0", none, none⟩)]⟩).devices "light" =
      dictGet
        (⟨false,
          [("light", ⟨"light", "Lights", "10.0.0.7", 80, 0, false,
            "iris-light.local"⟩)],
          [("light", ⟨some "0.0.0.0", none, none⟩)]⟩ :
          DeviceRegistry).devices "light" :=
  manual_invalid_ip_never_added 0
    ⟨false,
     [("light", ⟨"light", "Lights", "10.0.0.7", 80, 0, false,
       "iris-light.local"⟩)],
     [("light", ⟨some "0.0.0.0", none, none⟩)]⟩
    "light" ⟨some "0.0.0.0", none, none⟩
    (by decide) (by decide)
    (by intro s hs; cases hs; rfl)

/-- C8 counterexample: the address " 10.0.0.1 " is not a valid
dotted-quad IPv4 address (its fields carry whitespace), it is neither
empty nor a placeholder, yet _load_manual_devices adds it, because
Python int() strips whitespace inside _is_valid_ip: the registry record
for "light" changes from absent to present. -/
theorem manual_nonquad_ip_added_cex :
    isDottedQuadIPv4 " 10.0.0.1 " = false ∧
    DeviceRegistry.isValidIp " 10.0.0.1 " = true ∧
    dictGet
      (⟨false, [], [("light", ⟨some " 10.0.0.1 ", none, none⟩)]⟩ :
        DeviceRegistry).devices "light" = none ∧
    dictGet (DeviceRegistry.loadManualDevices 0
      ⟨false, [], [("light", ⟨some " 10.0.0.1 ", none, none⟩)]⟩).devices
      "light" ≠ none := by
  refine ⟨rfl, rfl, rfl, ?_⟩
  decide

/-- If no iteration of the trace ever sees an online device, the wait
loop ends in a Python TimeoutError. -/
lemma waitForRun_timeout_of_never_online (start timeout : Rat)
    (t : String) (trace : List (Rat × Option DiscoveredDevice))
    (h : ∀ e ∈ trace, ∀ d, e.2 = some d → d.online = false) :
    DeviceRegistry.waitForDeviceRun start timeout t trace =
      .error (.timeoutError t timeout) := by
  induction trace with
  | nil => rfl
  | cons e rest ih =>
      rcases e with ⟨tm, found⟩
      have hrest : ∀ e ∈ rest, ∀ d, e.2 = some d → d.online = false :=
        fun e he => h e (List.mem_cons_of_mem _ he)
      unfold DeviceRegistry.waitForDeviceRun
      split_ifs with h1
      · cases found with
        | none => exact ih hrest
        | some d =>
            have hd : d.online = false :=
              h (tm, some d) (List.mem_cons_self _ _) d rfl
            simpa [hd] using ih hrest
      · rfl

/-- If every iteration before the first online sighting stays within
the timeout, the wait loop returns that device. -/
lemma waitForRun_ok_first_online (start timeout : Rat) (t : String)
    (pre rest : List (Rat × Option DiscoveredDevice)) (tm : Rat)
    (d : DiscoveredDevice)
    (hpre : ∀ e ∈ pre, e.1 - start < timeout ∧
      ∀ d2, e.2 = some d2 → d2.online = false)
    (htm : tm - start < timeout) (hd : d.online = true) :
    DeviceRegistry.waitForDeviceRun start timeout t
      (pre ++ (tm, some d) :: rest) = .ok d := by
  induction pre with
  | nil =>
      unfold DeviceRegistry.waitForDeviceRun
      rw [List.nil_append]
      simp [htm, hd]
  | cons e pre2 ih =>
      rcases e with ⟨tm2, f2⟩
      obtain ⟨hg, hoff⟩ := hpre (tm2, f2) (List.mem_cons_self _ _)
      have hpre2 : ∀ e ∈ pre2, e.1 - start < timeout ∧
          ∀ d2, e.2 = some d2 → d2.online = false :=
        fun e he => hpre e (List.mem_cons_of_mem _ he)
      rw [List.cons_append]
      unfold DeviceRegistry.waitForDeviceRun
      rw [if_pos hg]
      cases f2 with
      | none => exact ih hpre2
      | some d2 =>
          have hoff2 : d2.online = false := hoff d2 rfl
          simpa [hoff2] using ih hpre2

/-- C9 (amended): wait_for_device blocks, re-polling; if the device
never appears online within the trace it fails with TimeoutError (not
the NotFoundError named by the specification), and if the device
appears online at some iteration inside the timeout window it returns
that device record. -/
theorem wait_for_device_spec :
    (∀ (start timeout : Rat) (t : String)
       (trace : List (Rat × Option DiscoveredDevice)),
       (∀ e ∈ trace, ∀ d, e.2 = some d → d.online = false) →
       DeviceRegistry.waitForDeviceRun start timeout t trace =
         .error (.timeoutError t timeout)) ∧
    (∀ (start timeout : Rat) (t : String)
       (pre rest : List (Rat × Option DiscoveredDevice)) (tm : Rat)
       (d : DiscoveredDevice),
       (∀ e ∈ pre, e.1 - start < timeout ∧
         ∀ d2, e.2 = some d2 → d2.online = false) →
       tm - start < timeout → d.online = true →
       DeviceRegistry.waitForDeviceRun start timeout t
         (pre ++ (tm, some d) :: rest) = .ok d) :=
  ⟨waitForRun_timeout_of_never_online, waitForRun_ok_first_online⟩

/-- Witness for C9 (amended): a device that stays absent times out
with TimeoutError; a device seen online in the second iteration is
returned. -/
theorem wait_for_device_spec_witness :
    DeviceRegistry.waitForDeviceRun 0 30 "pi" [(31, none)] =
      .error (.timeoutError "pi" 30) ∧
    DeviceRegistry.waitForDeviceRun 0 30 "pi"
      ([(0, none)] ++
        (1, some ⟨"pi", "Pi Display", "10.0.0.9", 22, 1, true,
          "iris-pi.local"⟩) :: []) =
      .ok ⟨"pi", "Pi Display", "10.0.0.9", 22, 1, true,
        "iris-pi.local"⟩ := by
  constructor
  · refine wait_for_device_spec.1 0 30 "pi" [(31, none)] ?_
    intro e he d hd
    rcases List.mem_singleton.mp he with rfl
    cases hd
  · refine wait_for_device_spec.2 0 30 "pi" [(0, none)] []
      1 ⟨"pi", "Pi Display", "10.0.0.9", 22, 1, true,
        "iris-pi.local"⟩ ?_ (by norm_num) rfl
    intro e he
    rcases List.mem_singleton.mp he with rfl
    exact ⟨by norm_num, fun d2 hd2 => by cases hd2⟩

/-- C9 counterexample: a concrete timed-out wait fails with
TimeoutError, which is not the NotFoundError the claim names. -/
theorem wait_for_timeout_error_cex :
    DeviceRegistry.waitForDeviceRun 0 0 "pi" [] =
      .error (.timeoutError "pi" 0) ∧
    IrisError.isNotFound (.timeoutError "pi" 0) = false :=
  ⟨rfl, rfl⟩
